import Mathlib

/-!
Verification of the conversation/session-state design of a Telegram/Groq
chat bot (source: `bot.mjs` plus a simpler single-call variant).

The JavaScript source is shallowly embedded: the three process-wide `Map`s
become functions `Nat → Option _` inside a `Store` structure, the event
handlers become pure functions from a store (plus the outcomes of the
external completion and transport calls, passed in as explicit oracle
values) to a new store together with the list of outbound transport
operations and the list of completion requests issued.
-/

namespace GroqBot

/-- A role-tagged chat message, as stored in the `dialogs` map and sent to
the completion endpoint. -/
structure ChatMsg where
  role : String
  content : String
deriving DecidableEq

/-- `const MODEL = "llama-3.3-70b-versatile"`. -/
def MODEL : String := "llama-3.3-70b-versatile"

/-- `const DEFAULT_SYSTEM = ...` (bot.mjs line 19). -/
def DEFAULT_SYSTEM : String := "Ты полезный ассистент. Отвечай по делу."

/-- `const STOP_MARKER = "<END>"`. -/
def STOP_MARKER : String := "<END>"

/-- The per-chat settings object created by `newDefaultSettings` and
mutated field-by-field by the button handlers.  Numeric fields are
modelled as `ℚ` (the program only ever stores the exact decimal values
0, 0.2, 0.6, 0.7, 0.9, which are exact in both ℚ and JS floats). -/
structure Settings where
  max_tokens : ℕ
  format : String
  temperature : ℚ
  frequency_penalty : ℚ
  presence_penalty : ℚ
  use_stop : Bool
deriving DecidableEq

/-- `newDefaultSettings()` (bot.mjs lines 29-38). -/
def newDefaultSettings : Settings :=
  { max_tokens := 128
    format := "bullets"
    temperature := 0.7
    frequency_penalty := 0
    presence_penalty := 0
    use_stop := true }

/-- The three process-wide `Map`s of bot.mjs (lines 25-27), each keyed by
the numeric chat id. -/
structure Store where
  dialogs : ℕ → Option (List ChatMsg)
  settingsByChat : ℕ → Option Settings
  settingsMsgIdByChat : ℕ → Option ℕ

/-- `Map.set`: point update of a map. -/
def mapSet (m : ℕ → Option α) (k : ℕ) (v : α) : ℕ → Option α :=
  fun k' => if k' = k then some v else m k'

/-- `Map.delete`: point removal from a map. -/
def mapDelete (m : ℕ → Option α) (k : ℕ) : ℕ → Option α :=
  fun k' => if k' = k then none else m k'

/-- The store at process start: all three maps empty. -/
def emptyStore : Store :=
  { dialogs := fun _ => none
    settingsByChat := fun _ => none
    settingsMsgIdByChat := fun _ => none }

/-- `ensureSession(chatId)` (bot.mjs lines 40-47). -/
def ensureSession (st : Store) (chatId : ℕ) : Store :=
  let st1 :=
    if (st.dialogs chatId).isSome then st
    else { st with dialogs := mapSet st.dialogs chatId [⟨"system", DEFAULT_SYSTEM⟩] }
  if (st1.settingsByChat chatId).isSome then st1
  else { st1 with settingsByChat := mapSet st1.settingsByChat chatId newDefaultSettings }

/-- `resetSession(chatId)` (bot.mjs lines 49-54): delete all three entries,
then re-create defaults. -/
def resetSession (st : Store) (chatId : ℕ) : Store :=
  ensureSession
    { dialogs := mapDelete st.dialogs chatId
      settingsByChat := mapDelete st.settingsByChat chatId
      settingsMsgIdByChat := mapDelete st.settingsMsgIdByChat chatId }
    chatId

/-- JS `String.prototype.slice(0, n)`, over the character-list view of a
string (UTF-16 code-unit subtleties are outside this model). -/
def jsSlice (s : String) (n : ℕ) : String := String.mk (s.data.take n)

/-- JS `String.prototype.trim()`: drop leading and trailing whitespace. -/
def jsTrim (s : String) : String :=
  String.mk (((s.data.dropWhile Char.isWhitespace).reverse.dropWhile
    Char.isWhitespace).reverse)

/-- JS `String.prototype.startsWith(pre)`. -/
def jsStartsWith (s pre : String) : Bool := pre.data.isPrefixOf s.data

/-- `safeTelegramText(text)` (bot.mjs lines 66-68). -/
def safeTelegramText (text : String) : String :=
  if text.length > 3500 then jsSlice text 3500 ++ "\n\n…(обрезано)" else text

/-- Rendering of a JS number into a template literal, for the numeric
values this program stores (integers and the one-decimal fractions
0.2 / 0.6 / 0.7 / 0.9). -/
def jsNumStr (q : ℚ) : String :=
  if q = 0.2 then "0.2"
  else if q = 0.6 then "0.6"
  else if q = 0.7 then "0.7"
  else if q = 0.9 then "0.9"
  else if q.den = 1 then toString q.num
  else toString q

/-- `prettySettings(s)` (bot.mjs lines 70-74). -/
def prettySettings (s : Settings) : String :=
  let fmt := if s.format = "json" then "JSON" else "Список"
  let stop := if s.use_stop then "ON (" ++ STOP_MARKER ++ ")" else "OFF"
  "max_tokens: " ++ toString s.max_tokens ++ " | format: " ++ fmt ++
    " | temp: " ++ jsNumStr s.temperature ++ " | freq: " ++ jsNumStr s.frequency_penalty ++
    " | pres: " ++ jsNumStr s.presence_penalty ++ " | stop: " ++ stop

/-- The format directive of `buildConstrainedUserPrompt` (bot.mjs 163-166). -/
def formatInstruction (s : Settings) : String :=
  if s.format = "json" then
    "Формат ответа: строго JSON без markdown. Поля: \x7b\"answer\": string, \"bullets\": string[]\x7d."
  else
    "Формат ответа: список из 3–6 пунктов. Каждый пункт короткий."

/-- `Math.min(120, Math.round(s.max_tokens * 0.75))` (bot.mjs 168-171).
`Math.round` rounds half toward positive infinity, i.e. `round` on ℚ;
`max_tokens * 0.75` is exact in JS floats for every integer `max_tokens`
this program can store. -/
def constrainedWordLimit (s : Settings) : ℤ :=
  min 120 (round ((s.max_tokens : ℚ) * 0.75))

/-- The length directive of `buildConstrainedUserPrompt` (bot.mjs 168-171). -/
def lengthInstruction (s : Settings) : String :=
  "Ограничение длины: уложись примерно в " ++ toString (constrainedWordLimit s) ++
    " слов максимум."

/-- The termination directive of `buildConstrainedUserPrompt` (bot.mjs 173-175). -/
def stopInstruction (s : Settings) : String :=
  if s.use_stop then
    "Условие завершения: в конце выведи отдельной строкой " ++ STOP_MARKER ++ "."
  else
    "Условие завершения: закончи сразу после выполнения требований."

/-- `buildConstrainedUserPrompt(userText, s)` (bot.mjs 162-185): the
six-element array `join("\n")` written out. -/
def buildConstrainedUserPrompt (userText : String) (s : Settings) : String :=
  jsTrim userText ++ "\n" ++ "" ++ "\n" ++ "Требования к ответу:" ++ "\n" ++
    ("- " ++ formatInstruction s) ++ "\n" ++ ("- " ++ lengthInstruction s) ++ "\n" ++
    ("- " ++ stopInstruction s)

/-- A value stored under one key of the completion request payload. -/
inductive PayloadVal where
  | str : String → PayloadVal
  | num : ℚ → PayloadVal
  | nat : ℕ → PayloadVal
  | strList : List String → PayloadVal
  | msgs : List ChatMsg → PayloadVal
deriving DecidableEq

/-- The parameter object handed to `callLLM`; `none` models a field whose
value is `undefined`. -/
structure GenParams where
  temperature : Option ℚ
  max_tokens : Option ℕ
  frequency_penalty : Option ℚ
  presence_penalty : Option ℚ
  stop : Option (List String)
deriving DecidableEq

/-- The payload assembled by `callLLM` (bot.mjs 187-197): the object
literal followed by deletion of every key whose value is `undefined`. -/
def callLLMPayload (messages : List ChatMsg) (params : GenParams) :
    List (String × PayloadVal) :=
  [("model", some (PayloadVal.str MODEL)),
   ("messages", some (PayloadVal.msgs messages)),
   ("temperature", params.temperature.map PayloadVal.num),
   ("max_tokens", params.max_tokens.map PayloadVal.nat),
   ("frequency_penalty", params.frequency_penalty.map PayloadVal.num),
   ("presence_penalty", params.presence_penalty.map PayloadVal.num),
   ("stop", params.stop.map PayloadVal.strList)].filterMap
    (fun kv => kv.2.map (fun v => (kv.1, v)))

/-- The `constrainedParams` object built in the text handler
(bot.mjs 453-459). -/
def constrainedParamsOf (s : Settings) : GenParams :=
  { temperature := some s.temperature
    max_tokens := some s.max_tokens
    frequency_penalty := some s.frequency_penalty
    presence_penalty := some s.presence_penalty
    stop := if s.use_stop then some [STOP_MARKER] else none }

/-- `UNRESTRICTED_PARAMS` (bot.mjs 204-210). -/
def UNRESTRICTED_PARAMS : GenParams :=
  { temperature := some 0.7
    max_tokens := some 800
    frequency_penalty := some 0
    presence_penalty := some 0
    stop := none }

/-- One inline-keyboard button: visible label plus callback identifier. -/
structure TgButton where
  label : String
  callback : String
deriving DecidableEq

/-- An inline keyboard: a grid of buttons. -/
abbrev Keyboard := List (List TgButton)

/-- `labelRow(text)` (bot.mjs 81-84): an inert pseudo-label button row. -/
def labelRow (text : String) : List TgButton :=
  [⟨"— " ++ text ++ " —", "noop"⟩]

/-- `controlsKeyboard(chatId)` (bot.mjs 86-142).  The source reads the
settings of the chat via `getSettings`; every caller has already ensured
the session, so the keyboard is a function of the settings value. -/
def controlsKeyboard (s : Settings) : Keyboard :=
  [labelRow "Количество токенов на ответ (max_tokens)",
   [⟨if s.max_tokens = 64 then "🟩 64" else "64", "len_64"⟩,
    ⟨if s.max_tokens = 128 then "🟩 128" else "128", "len_128"⟩,
    ⟨if s.max_tokens = 256 then "🟩 256" else "256", "len_256"⟩,
    ⟨if s.max_tokens = 512 then "🟩 512" else "512", "len_512"⟩],
   labelRow "Формат вывода",
   [⟨if s.format = "bullets" then "🟩 Список" else "Список", "fmt_bullets"⟩,
    ⟨if s.format = "json" then "🟩 JSON" else "JSON", "fmt_json"⟩],
   labelRow "Случайность (temperature)",
   [⟨if s.temperature = 0.2 then "🟩 0.2" else "0.2", "temp_0.2"⟩,
    ⟨if s.temperature = 0.9 then "🟩 0.9" else "0.9", "temp_0.9"⟩],
   labelRow "Штраф повторов слов (frequency_penalty)",
   [⟨if s.frequency_penalty = 0 then "🟩 0" else "0", "freq_0"⟩,
    ⟨if s.frequency_penalty = 0.6 then "🟩 0.6" else "0.6", "freq_0.6"⟩],
   labelRow "Штраф повторов тем (presence_penalty)",
   [⟨if s.presence_penalty = 0 then "🟩 0" else "0", "pres_0"⟩,
    ⟨if s.presence_penalty = 0.6 then "🟩 0.6" else "0.6", "pres_0.6"⟩],
   labelRow "Условие завершения (stop)",
   [⟨if s.use_stop then "🟩 ON" else "ON", "stop_on"⟩,
    ⟨if s.use_stop = false then "🟩 OFF" else "OFF", "stop_off"⟩],
   [⟨"⬅️ Назад", "back_to_prompt"⟩]]

/-- `afterAnswerKeyboard()` (bot.mjs 144-151). -/
def afterAnswerKeyboard : Keyboard :=
  [[⟨"🆕 Новый вопрос", "new_question"⟩,
    ⟨"⚙️ Изменить настройки", "open_settings"⟩]]

/-- `startKeyboard()` (bot.mjs 153-157). -/
def startKeyboard : Keyboard :=
  [[⟨"▶️ Start", "do_start"⟩]]

/-- One outbound chat-transport operation performed by a handler.  Only
operations that actually reach the transport are recorded; an edit
attempt that the transport rejects produces no entry (its `catch` branch
is silent). -/
inductive TgOp where
  | sendMessage (text : String) (kb : Option Keyboard)
  | editCurrent (text : String) (kb : Keyboard)
  | editById (chatId : ℕ) (messageId : ℕ) (text : String) (kb : Keyboard)
  | answerCbQuery (text : String)
  | sendChatAction (action : String)
deriving DecidableEq

/-- Outcomes of the chat-transport calls attempted by `showControls`,
supplied as an oracle: whether the in-place edit and the
direct-reference edit succeed, the message id of the pressed callback
message, and the message id assigned to a freshly sent screen. -/
structure TgEnv where
  editCurrentOk : Bool
  currentMsgId : Option ℕ
  editByIdOk : Bool
  newMsgId : Option ℕ
deriving DecidableEq

/-- Outcome of one `llm.chat.completions.create` call: a thrown
provider/network error, or a response whose first-choice content may be
missing (`none` models a missing `choices[0].message.content`). -/
inductive LLMResult where
  | failure : LLMResult
  | content : Option String → LLMResult
deriving DecidableEq

/-- The sentinel returned by `callLLM` when the provider returns no
content (bot.mjs 200). -/
def EMPTY_ANSWER : String := "(пустой ответ)"

/-- The settings-screen text assembled by `showControls` (bot.mjs 227-230). -/
def controlsText (s : Settings) : String :=
  "⚙️ Настройки\n" ++ prettySettings s ++ "\n\nНажимай кнопки ниже, чтобы менять параметры:"

/-- `showControls(ctx)` (bot.mjs 223-260): create-or-edit rendering of
the settings screen.  `isCallback` is `ctx.updateType === "callback_query"`. -/
def showControls (st : Store) (chatId : ℕ) (isCallback : Bool) (env : TgEnv) :
    Store × List TgOp :=
  let st1 := ensureSession st chatId
  let s := (st1.settingsByChat chatId).getD newDefaultSettings
  let text := controlsText s
  let keyboard := controlsKeyboard s
  let existingId := st1.settingsMsgIdByChat chatId
  if isCallback && env.editCurrentOk then
    let st2 :=
      match env.currentMsgId with
      | some mid => { st1 with settingsMsgIdByChat := mapSet st1.settingsMsgIdByChat chatId mid }
      | none => st1
    (st2, [TgOp.editCurrent text keyboard])
  else
    match existingId with
    | some eid =>
      if env.editByIdOk then
        (st1, [TgOp.editById chatId eid text keyboard])
      else
        let st2 := { st1 with settingsMsgIdByChat := mapDelete st1.settingsMsgIdByChat chatId }
        let st3 :=
          match env.newMsgId with
          | some mid => { st2 with settingsMsgIdByChat := mapSet st2.settingsMsgIdByChat chatId mid }
          | none => st2
        (st3, [TgOp.sendMessage text (some keyboard)])
    | none =>
      let st3 :=
        match env.newMsgId with
        | some mid => { st1 with settingsMsgIdByChat := mapSet st1.settingsMsgIdByChat chatId mid }
        | none => st1
      (st3, [TgOp.sendMessage text (some keyboard)])

/-- The text of the Prompt screen sent by `showPrompt` (bot.mjs 262-267). -/
def promptText : String :=
  "Можешь задать вопрос. Я пришлю 2 ответа: (1) с ограничениями и (2) без ограничений."

/-- The single operation performed by `showPrompt(ctx)`. -/
def showPromptOps : List TgOp :=
  [TgOp.sendMessage promptText (some afterAnswerKeyboard)]

/-- The single operation performed by `showStartScreen(ctx)` (bot.mjs 215-220). -/
def showStartOps : List TgOp :=
  [TgOp.sendMessage "Нажми Start, чтобы начать и увидеть настройки." (some startKeyboard)]

/-- The generic apology sent from the text handler's `catch` (bot.mjs 494). -/
def apologyText : String :=
  "Упс, ошибка при запросе к модели. Смотри лог в консоли."

/-- The fixed header of the unrestricted reply (bot.mjs 482-483): the
template literal rendered with `UNRESTRICTED_PARAMS`. -/
def unrestrictedHeader : String :=
  "🟦 Без ограничений\n" ++ "temp: 0.7, max_tokens: 800" ++ "\n\n"

/-- Everything the text handler produces: the new store, the outbound
transport operations in order, and the completion requests issued in
order (message list and generation parameters of each). -/
structure TextResult where
  store : Store
  ops : List TgOp
  calls : List (List ChatMsg × GenParams)

/-- `bot.on("text", ...)` (bot.mjs 426-497).  `msgText` is
`ctx.message.text` (`none` when absent); `r1`/`r2` are the oracle
outcomes of the constrained and the unrestricted completion call. -/
def botOnText (st : Store) (chatId : ℕ) (msgText : Option String)
    (r1 r2 : LLMResult) : TextResult :=
  match msgText with
  | none => ⟨st, [], []⟩
  | some raw =>
    let userText := jsTrim raw
    if userText = "" then ⟨st, [], []⟩
    else if jsStartsWith userText "/" then ⟨st, [], []⟩
    else if !((st.dialogs chatId).isSome && (st.settingsByChat chatId).isSome) then
      ⟨st, showStartOps, []⟩
    else
      let st1 := ensureSession st chatId
      let s := (st1.settingsByChat chatId).getD newDefaultSettings
      let history := (st1.dialogs chatId).getD []
      let baseMessages := history ++ [⟨"user", userText⟩]
      let constrainedUser := buildConstrainedUserPrompt userText s
      let constrainedMessages := history ++ [⟨"user", constrainedUser⟩]
      let cp := constrainedParamsOf s
      match r1 with
      | LLMResult.failure =>
        ⟨st1,
         [TgOp.sendChatAction "typing", TgOp.sendMessage apologyText none] ++ showPromptOps,
         [(constrainedMessages, cp)]⟩
      | LLMResult.content c1 =>
        let a1 := c1.getD EMPTY_ANSWER
        let reply1 := TgOp.sendMessage
          ("✅ С ограничениями\n" ++ prettySettings s ++ "\n\n" ++ safeTelegramText a1) none
        match r2 with
        | LLMResult.failure =>
          ⟨st1,
           [TgOp.sendChatAction "typing", reply1, TgOp.sendChatAction "typing",
            TgOp.sendMessage apologyText none] ++ showPromptOps,
           [(constrainedMessages, cp), (baseMessages, UNRESTRICTED_PARAMS)]⟩
        | LLMResult.content c2 =>
          let a2 := c2.getD EMPTY_ANSWER
          let reply2 := TgOp.sendMessage (unrestrictedHeader ++ safeTelegramText a2) none
          let newHistory := history ++ [⟨"user", userText⟩, ⟨"assistant", a2⟩]
          ⟨{ st1 with dialogs := mapSet st1.dialogs chatId newHistory },
           [TgOp.sendChatAction "typing", reply1, TgOp.sendChatAction "typing", reply2] ++
             showPromptOps,
           [(constrainedMessages, cp), (baseMessages, UNRESTRICTED_PARAMS)]⟩

/-- Digits captured by the `len_(\d+)` pattern, converted by `Number`. -/
def digitsToNat (l : List Char) : ℕ :=
  l.foldl (fun acc c => 10 * acc + (c.toNat - 48)) 0

/-- Leftmost search of the regular expression `len_(\d+)` over a
character list: at each position try to match `len_` followed by a
non-empty maximal digit run, advancing one character on failure. -/
def lenMatchAux : List Char → Option (List Char)
  | [] => none
  | c :: rest =>
    match c, rest with
    | 'l', 'e' :: 'n' :: '_' :: rest2 =>
      let ds := rest2.takeWhile Char.isDigit
      if ds.isEmpty then lenMatchAux rest else some ds
    | _, _ => lenMatchAux rest

/-- The trigger `bot.action(/len_(\d+)/)` (bot.mjs 324): `some n` when the
callback data matches, carrying `Number(ctx.match[1])`. -/
def lenCallbackMatch (data : String) : Option ℕ :=
  (lenMatchAux data.data).map digitsToNat

/-- The common body of the eleven settings-button handlers
(bot.mjs 324-421): ensure the session, mutate the settings object held in
the map, acknowledge the press, re-render the settings screen. -/
def settingsMutation (st : Store) (chatId : ℕ) (f : Settings → Settings) (env : TgEnv) :
    Store × List TgOp :=
  let st1 := ensureSession st chatId
  let s := (st1.settingsByChat chatId).getD newDefaultSettings
  let st2 := { st1 with settingsByChat := mapSet st1.settingsByChat chatId (f s) }
  let r := showControls st2 chatId true env
  (r.1, TgOp.answerCbQuery "OK" :: r.2)

/-- The callback-query dispatch over all registered `bot.action` handlers
(bot.mjs 295-421), in registration order.  Telegraf string triggers match
the callback data exactly; the one regular-expression trigger is
`lenCallbackMatch`.  Data matching no handler is ignored. -/
def onCallback (st : Store) (chatId : ℕ) (data : String) (env : TgEnv) :
    Store × List TgOp :=
  if data = "noop" then (st, [TgOp.answerCbQuery " "])
  else if data = "do_start" then
    let st1 := resetSession st chatId
    let r := showControls st1 chatId true env
    (r.1, [TgOp.answerCbQuery "OK", TgOp.sendMessage "Начали новую сессию." none] ++
      r.2 ++ showPromptOps)
  else if data = "new_question" then
    (st, [TgOp.answerCbQuery "OK", TgOp.sendMessage "Ок! Напиши новый вопрос текстом 🙂" none])
  else if data = "open_settings" then
    let r := showControls st chatId true env
    (r.1, TgOp.answerCbQuery "OK" :: r.2)
  else if data = "back_to_prompt" then
    (st, TgOp.answerCbQuery "OK" :: showPromptOps)
  else
    match lenCallbackMatch data with
    | some n => settingsMutation st chatId (fun s => { s with max_tokens := n }) env
    | none =>
      if data = "fmt_bullets" then
        settingsMutation st chatId (fun s => { s with format := "bullets" }) env
      else if data = "fmt_json" then
        settingsMutation st chatId (fun s => { s with format := "json" }) env
      else if data = "temp_0.2" then
        settingsMutation st chatId (fun s => { s with temperature := 0.2 }) env
      else if data = "temp_0.9" then
        settingsMutation st chatId (fun s => { s with temperature := 0.9 }) env
      else if data = "freq_0" then
        settingsMutation st chatId (fun s => { s with frequency_penalty := 0 }) env
      else if data = "freq_0.6" then
        settingsMutation st chatId (fun s => { s with frequency_penalty := 0.6 }) env
      else if data = "pres_0" then
        settingsMutation st chatId (fun s => { s with presence_penalty := 0 }) env
      else if data = "pres_0.6" then
        settingsMutation st chatId (fun s => { s with presence_penalty := 0.6 }) env
      else if data = "stop_on" then
        settingsMutation st chatId (fun s => { s with use_stop := true }) env
      else if data = "stop_off" then
        settingsMutation st chatId (fun s => { s with use_stop := false }) env
      else (st, [])

/-- `bot.start` (bot.mjs 272-278). -/
def startCommand (st : Store) (chatId : ℕ) (env : TgEnv) : Store × List TgOp :=
  let st1 := resetSession st chatId
  let r := showControls st1 chatId false env
  (r.1,
   TgOp.sendMessage "Привет! Это бот для экспериментов с контролем ответа.\nКоманды: /reset, /controls" none ::
     r.2 ++ showPromptOps)

/-- `bot.command("controls")` (bot.mjs 280-283). -/
def controlsCommand (st : Store) (chatId : ℕ) (env : TgEnv) : Store × List TgOp :=
  let st1 := ensureSession st chatId
  showControls st1 chatId false env

/-- `bot.command("reset")` (bot.mjs 285-290). -/
def resetCommand (st : Store) (chatId : ℕ) (env : TgEnv) : Store × List TgOp :=
  let st1 := resetSession st chatId
  let r := showControls st1 chatId false env
  (r.1, TgOp.sendMessage "Ок, контекст и настройки сброшены." none :: r.2 ++ showPromptOps)

/-- `getMessages(chatId)` of the simpler single-call bot
(src/unnamed/part_000 lines 21-28): create-on-first-use with its own
system message. -/
def simpleEnsure (dialogs : ℕ → Option (List ChatMsg)) (chatId : ℕ) :
    ℕ → Option (List ChatMsg) :=
  if (dialogs chatId).isSome then dialogs
  else mapSet dialogs chatId
    [⟨"system", "Ты полезный ассистент. Отвечай кратко и по делу."⟩]

/-- The parameter object of the simpler bot's single completion call
(src/unnamed/part_000 lines 53-57): only `temperature` is given. -/
def simpleParams : GenParams :=
  { temperature := some 0.7
    max_tokens := none
    frequency_penalty := none
    presence_penalty := none
    stop := none }

/-- `bot.on("text", ...)` of the simpler single-call bot
(src/unnamed/part_000 lines 41-69). -/
def simpleBotOnText (dialogs : ℕ → Option (List ChatMsg)) (chatId : ℕ)
    (msgText : Option String) (r : LLMResult) :
    (ℕ → Option (List ChatMsg)) × List TgOp × List (List ChatMsg × GenParams) :=
  match msgText with
  | none => (dialogs, [], [])
  | some raw =>
    let text := jsTrim raw
    if text = "" then (dialogs, [], [])
    else
      let d0 := simpleEnsure dialogs chatId
      let messages := (d0 chatId).getD [] ++ [⟨"user", text⟩]
      let d1 := mapSet d0 chatId messages
      match r with
      | LLMResult.failure =>
        (d1, [TgOp.sendChatAction "typing", TgOp.sendMessage apologyText none],
         [(messages, simpleParams)])
      | LLMResult.content c =>
        let answer := c.getD EMPTY_ANSWER
        let d2 := mapSet d1 chatId (messages ++ [⟨"assistant", answer⟩])
        let safe :=
          if answer.length > 3500 then jsSlice answer 3500 ++ "\n\n…(обрезано)" else answer
        (d2, [TgOp.sendChatAction "typing", TgOp.sendMessage safe none],
         [(messages, simpleParams)])

/-! ### Helper lemmas -/

theorem data_append (s t : String) : (s ++ t).data = s.data ++ t.data := rfl

/-- `ensureSession` is the identity when both maps already hold the chat. -/
theorem ensureSession_of_isSome (st : Store) (chatId : ℕ)
    (hd : (st.dialogs chatId).isSome) (hs : (st.settingsByChat chatId).isSome) :
    ensureSession st chatId = st := by
  simp [ensureSession, hd, hs]

/-- Recogniser for the generic apology reply. -/
def isApology (op : TgOp) : Bool :=
  match op with
  | TgOp.sendMessage t none => t == apologyText
  | _ => false

theorem constrainedPrefix_ne_apology (a b : String) :
    ("✅ С ограничениями\n" ++ a ++ "\n\n" ++ b) ≠ apologyText := by
  intro h
  have h1 : ("✅ С ограничениями\n" ++ a ++ "\n\n" ++ b).data.head? =
      apologyText.data.head? := by rw [h]
  have h2 : ("✅ С ограничениями\n" ++ a ++ "\n\n" ++ b).data.head? = some '✅' := rfl
  rw [h2] at h1
  exact absurd h1 (by decide)

theorem unrestrictedPrefix_ne_apology (x : String) :
    (unrestrictedHeader ++ x) ≠ apologyText := by
  intro h
  have h1 : (unrestrictedHeader ++ x).data.head? = apologyText.data.head? := by rw [h]
  have h2 : (unrestrictedHeader ++ x).data.head? = some '🟦' := rfl
  rw [h2] at h1
  exact absurd h1 (by decide)

@[simp] theorem isApology_chatAction (a : String) :
    isApology (TgOp.sendChatAction a) = false := rfl

@[simp] theorem isApology_apology : isApology (TgOp.sendMessage apologyText none) = true := by
  simp [isApology]

@[simp] theorem isApology_kb (t : String) (k : Keyboard) :
    isApology (TgOp.sendMessage t (some k)) = false := rfl

@[simp] theorem isApology_constrained (a b : String) :
    isApology (TgOp.sendMessage ("✅ С ограничениями\n" ++ a ++ "\n\n" ++ b) none) =
      false := by
  simp only [isApology, beq_eq_false_iff_ne, ne_eq]
  exact constrainedPrefix_ne_apology a b

@[simp] theorem isApology_unrestricted (x : String) :
    isApology (TgOp.sendMessage (unrestrictedHeader ++ x) none) = false := by
  simp only [isApology, beq_eq_false_iff_ne, ne_eq]
  exact unrestrictedPrefix_ne_apology x

/-! ### Claims -/

/-- C5: for an identifier never seen before, the first `ensureSession`
produces a one-element history holding only the fixed system message and
the documented default settings; and `resetSession` followed by
`ensureSession` yields this same default state regardless of the prior
store contents. -/
theorem C5_session_defaults (st : Store) (id : ℕ)
    (hd : st.dialogs id = none) (hs : st.settingsByChat id = none) :
    ((ensureSession st id).dialogs id = some [⟨"system", DEFAULT_SYSTEM⟩] ∧
     ((ensureSession st id).dialogs id).map List.length = some 1 ∧
     (ensureSession st id).settingsByChat id =
       some { max_tokens := 128, format := "bullets", temperature := 0.7,
              frequency_penalty := 0, presence_penalty := 0, use_stop := true }) ∧
    ∀ st2 : Store,
      (ensureSession (resetSession st2 id) id).dialogs id =
          some [⟨"system", DEFAULT_SYSTEM⟩] ∧
      (ensureSession (resetSession st2 id) id).settingsByChat id =
        some { max_tokens := 128, format := "bullets", temperature := 0.7,
               frequency_penalty := 0, presence_penalty := 0, use_stop := true } := by
  constructor
  · simp [ensureSession, mapSet, hd, hs, newDefaultSettings]
  · intro st2
    simp [resetSession, ensureSession, mapSet, mapDelete, newDefaultSettings]

/-- Witness for C5 at the concrete empty store and identifier 0. -/
theorem C5_session_defaults_witness :
    (ensureSession emptyStore 0).dialogs 0 = some [⟨"system", DEFAULT_SYSTEM⟩] ∧
    (ensureSession emptyStore 0).settingsByChat 0 =
      some { max_tokens := 128, format := "bullets", temperature := 0.7,
             frequency_penalty := 0, presence_penalty := 0, use_stop := true } ∧
    (ensureSession (resetSession emptyStore 0) 0).dialogs 0 =
      some [⟨"system", DEFAULT_SYSTEM⟩] := by
  have h := C5_session_defaults emptyStore 0 rfl rfl
  exact ⟨h.1.1, h.1.2.2, (h.2 emptyStore).1⟩

/-- C6: the length directive embedded in the constrained prompt specifies
exactly `min(120, round(max_tokens * 0.75))` words; in particular 512
yields 120 and 64 yields 48. -/
theorem C6_length_directive :
    (∀ (u : String) (s : Settings), ∃ pre post : List Char,
        (buildConstrainedUserPrompt u s).data =
          pre ++ (lengthInstruction s).data ++ post) ∧
    (∀ s : Settings, lengthInstruction s =
        "Ограничение длины: уложись примерно в " ++
          toString (min (120 : ℤ) (round ((s.max_tokens : ℚ) * 0.75))) ++
          " слов максимум.") ∧
    (∀ (fmt : String) (t fp pp : ℚ) (us : Bool),
        constrainedWordLimit ⟨512, fmt, t, fp, pp, us⟩ = 120 ∧
        constrainedWordLimit ⟨64, fmt, t, fp, pp, us⟩ = 48) := by
  refine ⟨fun u s => ?_, fun s => rfl, fun fmt t fp pp us => ?_⟩
  · refine ⟨(jsTrim u ++ "\n" ++ "" ++ "\n" ++ "Требования к ответу:" ++ "\n" ++
        ("- " ++ formatInstruction s) ++ "\n" ++ "- ").data,
      ("\n" ++ ("- " ++ stopInstruction s)).data, ?_⟩
    simp [buildConstrainedUserPrompt, data_append, List.append_assoc]
  · constructor
    · norm_num [constrainedWordLimit, round_eq]
    · norm_num [constrainedWordLimit, round_eq]

/-- Spec-side list of the keys the request payload should contain: the
always-present keys plus one key per parameter that is set (comparison
definition following the spec's words, to be matched against
`callLLMPayload`). -/
def specPresentKeys (p : GenParams) : List String :=
  ["model", "messages"] ++
    (if p.temperature.isSome then ["temperature"] else []) ++
    (if p.max_tokens.isSome then ["max_tokens"] else []) ++
    (if p.frequency_penalty.isSome then ["frequency_penalty"] else []) ++
    (if p.presence_penalty.isSome then ["presence_penalty"] else []) ++
    (if p.stop.isSome then ["stop"] else [])

/-- C7: the constrained parameters set `stop` to the one-element marker
list iff `use_stop` is true; and the payload sent by `callLLM` contains a
key exactly for each parameter that is set (unset parameters are omitted,
not sent as null or default), with `stop` carrying exactly the configured
list. -/
theorem C7_stop_and_omission :
    (∀ s : Settings, (constrainedParamsOf s).stop =
        (if s.use_stop then some [STOP_MARKER] else none)) ∧
    (∀ (msgs : List ChatMsg) (p : GenParams),
        (callLLMPayload msgs p).map Prod.fst = specPresentKeys p) ∧
    (∀ (msgs : List ChatMsg) (p : GenParams) (l : List String),
        (("stop", PayloadVal.strList l) ∈ callLLMPayload msgs p ↔ p.stop = some l)) := by
  refine ⟨fun s => rfl, fun msgs p => ?_, fun msgs p l => ?_⟩
  · rcases p with ⟨t, m, f, pr, sp⟩
    cases t <;> cases m <;> cases f <;> cases pr <;> cases sp <;> rfl
  · rcases p with ⟨t, m, f, pr, sp⟩
    cases t <;> cases m <;> cases f <;> cases pr <;> cases sp <;>
      simp [callLLMPayload, eq_comm]

/-- C1: on any completion failure (constrained call failing, or constrained
succeeding and unrestricted failing) the text handler sends exactly one
generic apology, re-renders the Prompt screen, and leaves the whole store —
history, settings and screen references of every conversation — exactly as
it was. -/
theorem C1_failure_leaves_state (st : Store) (chatId : ℕ) (raw : String)
    (r1 r2 : LLMResult)
    (hd : (st.dialogs chatId).isSome) (hs : (st.settingsByChat chatId).isSome)
    (hne : jsTrim raw ≠ "") (hcmd : jsStartsWith (jsTrim raw) "/" = false)
    (hfail : r1 = LLMResult.failure ∨
      ∃ c, r1 = LLMResult.content c ∧ r2 = LLMResult.failure) :
    (botOnText st chatId (some raw) r1 r2).store = st ∧
    (botOnText st chatId (some raw) r1 r2).ops.countP isApology = 1 ∧
    TgOp.sendMessage promptText (some afterAnswerKeyboard) ∈
      (botOnText st chatId (some raw) r1 r2).ops := by
  have hens := ensureSession_of_isSome st chatId hd hs
  rcases hfail with rfl | ⟨c, rfl, rfl⟩
  · simp [botOnText, hne, hcmd, hd, hs, hens, showPromptOps, List.countP_cons]
  · simp [botOnText, hne, hcmd, hd, hs, hens, showPromptOps, List.countP_cons]

/-- Witness for C1: a concrete failing constrained call. -/
theorem C1_failure_leaves_state_witness :
    (botOnText (ensureSession emptyStore 1) 1 (some "hi") LLMResult.failure
        LLMResult.failure).store = ensureSession emptyStore 1 ∧
    (botOnText (ensureSession emptyStore 1) 1 (some "hi") LLMResult.failure
        LLMResult.failure).ops.countP isApology = 1 ∧
    TgOp.sendMessage promptText (some afterAnswerKeyboard) ∈
      (botOnText (ensureSession emptyStore 1) 1 (some "hi") LLMResult.failure
        LLMResult.failure).ops :=
  C1_failure_leaves_state (ensureSession emptyStore 1) 1 "hi" LLMResult.failure
    LLMResult.failure (by decide) (by decide) (by decide) (by decide) (Or.inl rfl)

/-- C2 counterexample: fresh conversation `[system]`, user sends "hello",
the constrained call succeeds and the unrestricted call fails.  The claim
asserts the history afterwards equals `[system, user:"hello"]`; the code
leaves it exactly `[system]` (nothing is ever pushed before both calls
succeed). -/
theorem C2_counterexample :
    (botOnText (ensureSession emptyStore 1) 1 (some "hello")
        (LLMResult.content (some "ok")) LLMResult.failure).store.dialogs 1 =
      some [⟨"system", DEFAULT_SYSTEM⟩] ∧
    (botOnText (ensureSession emptyStore 1) 1 (some "hello")
        (LLMResult.content (some "ok")) LLMResult.failure).store.dialogs 1 ≠
      some [⟨"system", DEFAULT_SYSTEM⟩, ⟨"user", "hello"⟩] := by
  exact ⟨by decide, by decide⟩

/-- C2 (amended): in the scenario — fresh conversation with history
`[system]`, user sends "hello", constrained call succeeds, unrestricted
call fails — exactly one apology message is sent, the history after the
handler completes equals `[system]` (unchanged: the user message is not
appended at all), and the Prompt screen is re-rendered. -/
theorem C2_unrestricted_failure_scenario (st : Store) (chatId : ℕ) (c : Option String)
    (hd : st.dialogs chatId = some [⟨"system", DEFAULT_SYSTEM⟩])
    (hs : st.settingsByChat chatId = some newDefaultSettings) :
    (botOnText st chatId (some "hello") (LLMResult.content c)
        LLMResult.failure).ops.countP isApology = 1 ∧
    (botOnText st chatId (some "hello") (LLMResult.content c)
        LLMResult.failure).store.dialogs chatId = some [⟨"system", DEFAULT_SYSTEM⟩] ∧
    TgOp.sendMessage promptText (some afterAnswerKeyboard) ∈
      (botOnText st chatId (some "hello") (LLMResult.content c)
        LLMResult.failure).ops := by
  have hd' : (st.dialogs chatId).isSome := by simp [hd]
  have hs' : (st.settingsByChat chatId).isSome := by simp [hs]
  have hens := ensureSession_of_isSome st chatId hd' hs'
  have htrim : jsTrim "hello" = "hello" := by decide
  have hsw : jsStartsWith "hello" "/" = false := by decide
  simp [botOnText, htrim, hsw, hd, hd', hs', hens, showPromptOps, List.countP_cons]

/-- Witness for C2 (amended) at a concrete fresh store. -/
theorem C2_unrestricted_failure_scenario_witness :
    (botOnText (ensureSession emptyStore 1) 1 (some "hello")
        (LLMResult.content (some "ok")) LLMResult.failure).ops.countP isApology = 1 ∧
    (botOnText (ensureSession emptyStore 1) 1 (some "hello")
        (LLMResult.content (some "ok")) LLMResult.failure).store.dialogs 1 =
      some [⟨"system", DEFAULT_SYSTEM⟩] ∧
    TgOp.sendMessage promptText (some afterAnswerKeyboard) ∈
      (botOnText (ensureSession emptyStore 1) 1 (some "hello")
        (LLMResult.content (some "ok")) LLMResult.failure).ops :=
  C2_unrestricted_failure_scenario (ensureSession emptyStore 1) 1 (some "ok")
    (by decide) rfl

/-- C3: on a fully successful run, the constrained request carries the
pre-call history plus the constrained prompt, the unrestricted request
carries the pre-call history plus the raw (trimmed) user text — issued in
that order — and the history grows by exactly the raw user message and the
unrestricted answer, in that order; the constrained exchange is never
persisted, settings are untouched, and both replies plus the Prompt
re-render are sent. -/
theorem C3_success_flow (st : Store) (chatId : ℕ) (raw : String)
    (c1 c2 : Option String) (s : Settings) (hist : List ChatMsg)
    (hd : st.dialogs chatId = some hist) (hs : st.settingsByChat chatId = some s)
    (hne : jsTrim raw ≠ "") (hcmd : jsStartsWith (jsTrim raw) "/" = false) :
    (botOnText st chatId (some raw) (LLMResult.content c1)
        (LLMResult.content c2)).calls =
      [(hist ++ [⟨"user", buildConstrainedUserPrompt (jsTrim raw) s⟩],
          constrainedParamsOf s),
       (hist ++ [⟨"user", jsTrim raw⟩], UNRESTRICTED_PARAMS)] ∧
    (botOnText st chatId (some raw) (LLMResult.content c1)
        (LLMResult.content c2)).store.dialogs chatId =
      some (hist ++ [⟨"user", jsTrim raw⟩, ⟨"assistant", c2.getD EMPTY_ANSWER⟩]) ∧
    (∀ c, c ≠ chatId →
      (botOnText st chatId (some raw) (LLMResult.content c1)
          (LLMResult.content c2)).store.dialogs c = st.dialogs c) ∧
    (botOnText st chatId (some raw) (LLMResult.content c1)
        (LLMResult.content c2)).store.settingsByChat = st.settingsByChat ∧
    (botOnText st chatId (some raw) (LLMResult.content c1)
        (LLMResult.content c2)).ops =
      [TgOp.sendChatAction "typing",
       TgOp.sendMessage ("✅ С ограничениями\n" ++ prettySettings s ++ "\n\n" ++
         safeTelegramText (c1.getD EMPTY_ANSWER)) none,
       TgOp.sendChatAction "typing",
       TgOp.sendMessage (unrestrictedHeader ++ safeTelegramText (c2.getD EMPTY_ANSWER)) none,
       TgOp.sendMessage promptText (some afterAnswerKeyboard)] := by
  have hd' : (st.dialogs chatId).isSome := by simp [hd]
  have hs' : (st.settingsByChat chatId).isSome := by simp [hs]
  have hens := ensureSession_of_isSome st chatId hd' hs'
  refine ⟨?_, ?_, fun c hc => ?_, ?_, ?_⟩
  · simp [botOnText, hne, hcmd, hd, hs, hd', hs', hens]
  · simp [botOnText, hne, hcmd, hd, hs, hd', hs', hens, mapSet]
  · simp [botOnText, hne, hcmd, hd, hs, hd', hs', hens, mapSet, hc]
  · simp [botOnText, hne, hcmd, hd, hs, hd', hs', hens]
  · simp [botOnText, hne, hcmd, hd, hs, hd', hs', hens, showPromptOps]

/-- Witness for C3 at concrete inputs. -/
theorem C3_success_flow_witness :
    (botOnText (ensureSession emptyStore 1) 1 (some "hi") (LLMResult.content (some "a"))
        (LLMResult.content (some "b"))).calls =
      [([⟨"system", DEFAULT_SYSTEM⟩] ++
          [⟨"user", buildConstrainedUserPrompt (jsTrim "hi") newDefaultSettings⟩],
          constrainedParamsOf newDefaultSettings),
       ([⟨"system", DEFAULT_SYSTEM⟩] ++ [⟨"user", jsTrim "hi"⟩], UNRESTRICTED_PARAMS)] ∧
    (botOnText (ensureSession emptyStore 1) 1 (some "hi") (LLMResult.content (some "a"))
        (LLMResult.content (some "b"))).store.dialogs 1 =
      some ([⟨"system", DEFAULT_SYSTEM⟩] ++
        [⟨"user", jsTrim "hi"⟩, ⟨"assistant", (some "b").getD EMPTY_ANSWER⟩]) :=
  ⟨(C3_success_flow (ensureSession emptyStore 1) 1 "hi" (some "a") (some "b")
      newDefaultSettings [⟨"system", DEFAULT_SYSTEM⟩] (by decide) rfl
      (by decide) (by decide)).1,
   (C3_success_flow (ensureSession emptyStore 1) 1 "hi" (some "a") (some "b")
      newDefaultSettings [⟨"system", DEFAULT_SYSTEM⟩] (by decide) rfl
      (by decide) (by decide)).2.1⟩

/-- C4: replies longer than 3500 characters are sent as exactly their
first 3500 characters followed by the truncation marker, replies of at
most 3500 characters are sent unchanged, and in the text flow both the
constrained and the unrestricted reply bodies pass through this
truncation. -/
theorem C4_truncation :
    (∀ t : String, 3500 < t.length →
        safeTelegramText t = jsSlice t 3500 ++ "\n\n…(обрезано)" ∧
        (jsSlice t 3500).data = t.data.take 3500 ∧
        (jsSlice t 3500).length = 3500) ∧
    (∀ t : String, t.length ≤ 3500 → safeTelegramText t = t) ∧
    (∀ (st : Store) (chatId : ℕ) (raw : String) (c1 c2 : Option String)
        (s : Settings) (hist : List ChatMsg),
        st.dialogs chatId = some hist → st.settingsByChat chatId = some s →
        jsTrim raw ≠ "" → jsStartsWith (jsTrim raw) "/" = false →
        (botOnText st chatId (some raw) (LLMResult.content c1)
            (LLMResult.content c2)).ops =
          [TgOp.sendChatAction "typing",
           TgOp.sendMessage ("✅ С ограничениями\n" ++ prettySettings s ++ "\n\n" ++
             safeTelegramText (c1.getD EMPTY_ANSWER)) none,
           TgOp.sendChatAction "typing",
           TgOp.sendMessage (unrestrictedHeader ++
             safeTelegramText (c2.getD EMPTY_ANSWER)) none,
           TgOp.sendMessage promptText (some afterAnswerKeyboard)]) := by
  refine ⟨fun t ht => ⟨?_, rfl, ?_⟩, fun t ht => ?_, ?_⟩
  · simp [safeTelegramText, ht]
  · show (t.data.take 3500).length = 3500
    rw [List.length_take]
    have h2 : t.data.length = t.length := rfl
    omega
  · simp [safeTelegramText]
    omega
  · intro st chatId raw c1 c2 s hist hd hs hne hcmd
    have hd' : (st.dialogs chatId).isSome := by simp [hd]
    have hs' : (st.settingsByChat chatId).isSome := by simp [hs]
    have hens := ensureSession_of_isSome st chatId hd' hs'
    simp [botOnText, hne, hcmd, hd, hs, hd', hs', hens, showPromptOps]

/-- Witness for C4: a 3501-character reply and an 8-character reply. -/
theorem C4_truncation_witness :
    (safeTelegramText (String.mk (List.replicate 3501 'a')) =
        jsSlice (String.mk (List.replicate 3501 'a')) 3500 ++ "\n\n…(обрезано)" ∧
      (jsSlice (String.mk (List.replicate 3501 'a')) 3500).data =
        (String.mk (List.replicate 3501 'a')).data.take 3500 ∧
      (jsSlice (String.mk (List.replicate 3501 'a')) 3500).length = 3500) ∧
    safeTelegramText "короткий" = "короткий" :=
  ⟨C4_truncation.1 (String.mk (List.replicate 3501 'a'))
      (by show 3500 < (List.replicate 3501 'a').length; rw [List.length_replicate]; omega),
   C4_truncation.2.1 "короткий" (by decide)⟩

/-- C10: a text event whose text is absent or trims to the empty string
is a complete no-op in both bots: no transport operation, no completion
call, and the store (history, settings, screen references) is returned
untouched. -/
theorem C10_empty_text_noop (st : Store) (d : ℕ → Option (List ChatMsg))
    (chatId : ℕ) (msgText : Option String) (r1 r2 r : LLMResult)
    (h : msgText = none ∨ ∃ t, msgText = some t ∧ jsTrim t = "") :
    botOnText st chatId msgText r1 r2 = ⟨st, [], []⟩ ∧
    simpleBotOnText d chatId msgText r = (d, [], []) := by
  rcases h with rfl | ⟨t, rfl, ht⟩
  · exact ⟨rfl, rfl⟩
  · exact ⟨by simp [botOnText, ht], by simp [simpleBotOnText, ht]⟩

/-- Witness for C10: whitespace-only text against concrete stores. -/
theorem C10_empty_text_noop_witness :
    botOnText emptyStore 0 (some "  ") LLMResult.failure LLMResult.failure =
      ⟨emptyStore, [], []⟩ ∧
    simpleBotOnText (fun _ => none) 0 (some "  ") LLMResult.failure =
      (fun _ => none, [], []) :=
  C10_empty_text_noop emptyStore (fun _ => none) 0 (some "  ") LLMResult.failure
    LLMResult.failure LLMResult.failure (Or.inr ⟨"  ", rfl, by decide⟩)

/-! ### Settings-screen rendering lemmas -/

/-- `op` renders the Settings screen for settings value `s` (by in-place
edit, direct-reference edit, or fresh send). -/
def RendersControls (op : TgOp) (s : Settings) : Prop :=
  match op with
  | TgOp.sendMessage t k => t = controlsText s ∧ k = some (controlsKeyboard s)
  | TgOp.editCurrent t k => t = controlsText s ∧ k = controlsKeyboard s
  | TgOp.editById _ _ t k => t = controlsText s ∧ k = controlsKeyboard s
  | _ => False

theorem ensureSession_settingsByChat_of_isSome (st : Store) (chatId : ℕ)
    (h : (st.settingsByChat chatId).isSome) :
    (ensureSession st chatId).settingsByChat = st.settingsByChat := by
  by_cases hd : (st.dialogs chatId).isSome <;> simp [ensureSession, hd, h]

theorem ensureSession_dialogs_of_isSome (st : Store) (chatId : ℕ)
    (h : (st.dialogs chatId).isSome) :
    (ensureSession st chatId).dialogs = st.dialogs := by
  by_cases hs : (st.settingsByChat chatId).isSome <;> simp [ensureSession, h, hs]

theorem ensureSession_dialogs_isSome (st : Store) (chatId : ℕ) :
    ((ensureSession st chatId).dialogs chatId).isSome := by
  by_cases hd : (st.dialogs chatId).isSome <;>
    by_cases hs : (st.settingsByChat chatId).isSome <;>
    simp [ensureSession, hd, hs, mapSet]

theorem ensureSession_settings_isSome (st : Store) (chatId : ℕ) :
    ((ensureSession st chatId).settingsByChat chatId).isSome := by
  by_cases hd : (st.dialogs chatId).isSome <;>
    by_cases hs : (st.settingsByChat chatId).isSome <;>
    simp [ensureSession, hd, hs, mapSet]

/-- `showControls` only ever writes the screen-reference map: the settings
and dialogs maps of its result are those of the ensured store. -/
theorem showControls_store (st : Store) (chatId : ℕ) (b : Bool) (env : TgEnv) :
    ((showControls st chatId b env).1).settingsByChat =
      (ensureSession st chatId).settingsByChat ∧
    ((showControls st chatId b env).1).dialogs = (ensureSession st chatId).dialogs := by
  rcases env with ⟨ec, cm, ei, nm⟩
  by_cases h1 : (b && ec) = true
  · cases cm <;> simp [showControls, h1]
  · cases hex : (ensureSession st chatId).settingsMsgIdByChat chatId <;>
      cases ei <;> cases nm <;> simp [showControls, h1, hex]

/-- `showControls` always performs exactly one render of the settings
screen, for the ensured settings value. -/
theorem showControls_renders (st : Store) (chatId : ℕ) (b : Bool) (env : TgEnv) :
    ∃ op ∈ (showControls st chatId b env).2,
      RendersControls op
        (((ensureSession st chatId).settingsByChat chatId).getD newDefaultSettings) := by
  rcases env with ⟨ec, cm, ei, nm⟩
  by_cases h1 : (b && ec) = true
  · cases cm <;> simp [showControls, h1, RendersControls]
  · cases hex : (ensureSession st chatId).settingsMsgIdByChat chatId <;>
      cases ei <;> cases nm <;> simp [showControls, h1, hex, RendersControls]

/-- The settings map after a settings-button mutation: exactly the ensured
map with the one chat's entry replaced by the mutated value. -/
theorem settingsMutation_settings (st : Store) (chatId : ℕ) (f : Settings → Settings)
    (env : TgEnv) :
    (settingsMutation st chatId f env).1.settingsByChat =
      mapSet (ensureSession st chatId).settingsByChat chatId
        (f (((ensureSession st chatId).settingsByChat chatId).getD newDefaultSettings)) := by
  unfold settingsMutation
  rw [(showControls_store _ _ _ _).1]
  rw [ensureSession_settingsByChat_of_isSome]
  simp [mapSet]

theorem settingsMutation_dialogs (st : Store) (chatId : ℕ) (f : Settings → Settings)
    (env : TgEnv) :
    (settingsMutation st chatId f env).1.dialogs = (ensureSession st chatId).dialogs := by
  unfold settingsMutation
  rw [(showControls_store _ _ _ _).2]
  rw [ensureSession_dialogs_of_isSome]
  exact ensureSession_dialogs_isSome st chatId

theorem settingsMutation_renders (st : Store) (chatId : ℕ) (f : Settings → Settings)
    (env : TgEnv) :
    ∃ op ∈ (settingsMutation st chatId f env).2,
      RendersControls op
        (f (((ensureSession st chatId).settingsByChat chatId).getD newDefaultSettings)) := by
  obtain ⟨op, hop, hr⟩ := showControls_renders
    { ensureSession st chatId with
      settingsByChat := mapSet (ensureSession st chatId).settingsByChat chatId
        (f (((ensureSession st chatId).settingsByChat chatId).getD newDefaultSettings)) }
    chatId true env
  refine ⟨op, List.mem_cons_of_mem _ hop, ?_⟩
  rw [ensureSession_settingsByChat_of_isSome _ _ (by simp [mapSet])] at hr
  simpa [mapSet] using hr

/-- One bundled specification of a settings-button mutation, used for C8. -/
theorem settingsMutation_spec (st : Store) (chatId : ℕ) (f : Settings → Settings)
    (env : TgEnv) (s : Settings) (hs : st.settingsByChat chatId = some s)
    (hd : (st.dialogs chatId).isSome) :
    (settingsMutation st chatId f env).1.settingsByChat chatId = some (f s) ∧
    (∀ c, c ≠ chatId →
      (settingsMutation st chatId f env).1.settingsByChat c = st.settingsByChat c) ∧
    (settingsMutation st chatId f env).1.dialogs = st.dialogs ∧
    ∃ op ∈ (settingsMutation st chatId f env).2, RendersControls op (f s) := by
  have hs' : (st.settingsByChat chatId).isSome := by simp [hs]
  have he := ensureSession_settingsByChat_of_isSome st chatId hs'
  have hgetD :
      (((ensureSession st chatId).settingsByChat chatId).getD newDefaultSettings) = s := by
    rw [he, hs]; rfl
  refine ⟨?_, ?_, ?_, ?_⟩
  · rw [settingsMutation_settings, hgetD]; simp [mapSet]
  · intro c hc
    rw [settingsMutation_settings, hgetD]
    simp [mapSet, hc, he]
  · rw [settingsMutation_dialogs]
    exact ensureSession_dialogs_of_isSome st chatId hd
  · have := settingsMutation_renders st chatId f env
    rwa [hgetD] at this

/-- The callback identifiers of the settings-field buttons rendered on the
Settings screen. -/
def settingsButtonIds : List String :=
  ["len_64", "len_128", "len_256", "len_512", "fmt_bullets", "fmt_json",
   "temp_0.2", "temp_0.9", "freq_0", "freq_0.6", "pres_0", "pres_0.6",
   "stop_on", "stop_off"]

/-- Spec-side frame condition: the new settings equal the old with exactly
the field targeted by the pressed button set to the pressed value. -/
def OnlyTargetChanged (data : String) (old new : Settings) : Prop :=
  match data with
  | "len_64" => new = { old with max_tokens := 64 }
  | "len_128" => new = { old with max_tokens := 128 }
  | "len_256" => new = { old with max_tokens := 256 }
  | "len_512" => new = { old with max_tokens := 512 }
  | "fmt_bullets" => new = { old with format := "bullets" }
  | "fmt_json" => new = { old with format := "json" }
  | "temp_0.2" => new = { old with temperature := 0.2 }
  | "temp_0.9" => new = { old with temperature := 0.9 }
  | "freq_0" => new = { old with frequency_penalty := 0 }
  | "freq_0.6" => new = { old with frequency_penalty := 0.6 }
  | "pres_0" => new = { old with presence_penalty := 0 }
  | "pres_0.6" => new = { old with presence_penalty := 0.6 }
  | "stop_on" => new = { old with use_stop := true }
  | "stop_off" => new = { old with use_stop := false }
  | _ => False

/-- C8: pressing any settings-field button updates exactly the targeted
settings field of that conversation to the pressed value, leaves every
other settings field, every other conversation, and every history
untouched, and re-renders the Settings screen with the new settings. -/
theorem C8_settings_button_frame (st : Store) (chatId : ℕ) (data : String)
    (env : TgEnv) (s : Settings)
    (hs : st.settingsByChat chatId = some s) (hd : (st.dialogs chatId).isSome)
    (hmem : data ∈ settingsButtonIds) :
    ∃ s', (onCallback st chatId data env).1.settingsByChat chatId = some s' ∧
      OnlyTargetChanged data s s' ∧
      (onCallback st chatId data env).1.dialogs = st.dialogs ∧
      (∀ c, c ≠ chatId →
        (onCallback st chatId data env).1.settingsByChat c = st.settingsByChat c) ∧
      ∃ op ∈ (onCallback st chatId data env).2, RendersControls op s' := by
  fin_cases hmem
  · obtain ⟨h1, h2, h3, h4⟩ :=
      settingsMutation_spec st chatId (fun s => { s with max_tokens := 64 }) env s hs hd
    exact ⟨_, h1, rfl, h3, h2, h4⟩
  · obtain ⟨h1, h2, h3, h4⟩ :=
      settingsMutation_spec st chatId (fun s => { s with max_tokens := 128 }) env s hs hd
    exact ⟨_, h1, rfl, h3, h2, h4⟩
  · obtain ⟨h1, h2, h3, h4⟩ :=
      settingsMutation_spec st chatId (fun s => { s with max_tokens := 256 }) env s hs hd
    exact ⟨_, h1, rfl, h3, h2, h4⟩
  · obtain ⟨h1, h2, h3, h4⟩ :=
      settingsMutation_spec st chatId (fun s => { s with max_tokens := 512 }) env s hs hd
    exact ⟨_, h1, rfl, h3, h2, h4⟩
  · obtain ⟨h1, h2, h3, h4⟩ :=
      settingsMutation_spec st chatId (fun s => { s with format := "bullets" }) env s hs hd
    exact ⟨_, h1, rfl, h3, h2, h4⟩
  · obtain ⟨h1, h2, h3, h4⟩ :=
      settingsMutation_spec st chatId (fun s => { s with format := "json" }) env s hs hd
    exact ⟨_, h1, rfl, h3, h2, h4⟩
  · obtain ⟨h1, h2, h3, h4⟩ :=
      settingsMutation_spec st chatId (fun s => { s with temperature := 0.2 }) env s hs hd
    exact ⟨_, h1, rfl, h3, h2, h4⟩
  · obtain ⟨h1, h2, h3, h4⟩ :=
      settingsMutation_spec st chatId (fun s => { s with temperature := 0.9 }) env s hs hd
    exact ⟨_, h1, rfl, h3, h2, h4⟩
  · obtain ⟨h1, h2, h3, h4⟩ :=
      settingsMutation_spec st chatId (fun s => { s with frequency_penalty := 0 }) env s hs hd
    exact ⟨_, h1, rfl, h3, h2, h4⟩
  · obtain ⟨h1, h2, h3, h4⟩ :=
      settingsMutation_spec st chatId (fun s => { s with frequency_penalty := 0.6 }) env s hs hd
    exact ⟨_, h1, rfl, h3, h2, h4⟩
  · obtain ⟨h1, h2, h3, h4⟩ :=
      settingsMutation_spec st chatId (fun s => { s with presence_penalty := 0 }) env s hs hd
    exact ⟨_, h1, rfl, h3, h2, h4⟩
  · obtain ⟨h1, h2, h3, h4⟩ :=
      settingsMutation_spec st chatId (fun s => { s with presence_penalty := 0.6 }) env s hs hd
    exact ⟨_, h1, rfl, h3, h2, h4⟩
  · obtain ⟨h1, h2, h3, h4⟩ :=
      settingsMutation_spec st chatId (fun s => { s with use_stop := true }) env s hs hd
    exact ⟨_, h1, rfl, h3, h2, h4⟩
  · obtain ⟨h1, h2, h3, h4⟩ :=
      settingsMutation_spec st chatId (fun s => { s with use_stop := false }) env s hs hd
    exact ⟨_, h1, rfl, h3, h2, h4⟩

/-- Witness for C8: the `len_256` button on a fresh session. -/
theorem C8_settings_button_frame_witness :
    ∃ s', (onCallback (ensureSession emptyStore 1) 1 "len_256"
        ⟨true, some 5, true, some 7⟩).1.settingsByChat 1 = some s' ∧
      OnlyTargetChanged "len_256" newDefaultSettings s' ∧
      (onCallback (ensureSession emptyStore 1) 1 "len_256"
        ⟨true, some 5, true, some 7⟩).1.dialogs = (ensureSession emptyStore 1).dialogs ∧
      (∀ c, c ≠ 1 →
        (onCallback (ensureSession emptyStore 1) 1 "len_256"
          ⟨true, some 5, true, some 7⟩).1.settingsByChat c =
          (ensureSession emptyStore 1).settingsByChat c) ∧
      ∃ op ∈ (onCallback (ensureSession emptyStore 1) 1 "len_256"
        ⟨true, some 5, true, some 7⟩).2, RendersControls op s' :=
  C8_settings_button_frame (ensureSession emptyStore 1) 1 "len_256"
    ⟨true, some 5, true, some 7⟩ newDefaultSettings rfl (by decide) (by decide)

/-! ### Reachability and the max_tokens invariant -/

/-- The callback identifiers appearing on any keyboard this bot renders. -/
def renderedCallbackIds : List String :=
  ["noop", "do_start", "new_question", "open_settings", "back_to_prompt",
   "len_64", "len_128", "len_256", "len_512", "fmt_bullets", "fmt_json",
   "temp_0.2", "temp_0.9", "freq_0", "freq_0.6", "pres_0", "pres_0.6",
   "stop_on", "stop_off"]

/-- `n` is one of the four max-token budgets offered by the UI. -/
def MaxTokensVal (n : ℕ) : Prop := n = 64 ∨ n = 128 ∨ n = 256 ∨ n = 512

/-- Every stored settings value has a max-token budget from the UI set. -/
def MaxTokensInv (st : Store) : Prop :=
  ∀ c s, st.settingsByChat c = some s → MaxTokensVal s.max_tokens

/-- One inbound event, tagged with the chat it concerns and the oracle
outcomes of its external calls. -/
inductive BotEvent where
  | startCmd (chatId : ℕ) (env : TgEnv)
  | resetCmd (chatId : ℕ) (env : TgEnv)
  | controlsCmd (chatId : ℕ) (env : TgEnv)
  | textMsg (chatId : ℕ) (text : Option String) (r1 r2 : LLMResult)
  | callback (chatId : ℕ) (data : String) (env : TgEnv)

/-- The store after handling one event. -/
def stepStore (st : Store) : BotEvent → Store
  | BotEvent.startCmd c env => (startCommand st c env).1
  | BotEvent.resetCmd c env => (resetCommand st c env).1
  | BotEvent.controlsCmd c env => (controlsCommand st c env).1
  | BotEvent.textMsg c t r1 r2 => (botOnText st c t r1 r2).store
  | BotEvent.callback c d env => (onCallback st c d env).1

/-- An event whose callback data (if any) comes from a rendered keyboard. -/
def EventAllowed : BotEvent → Prop
  | BotEvent.callback _ d _ => d ∈ renderedCallbackIds
  | _ => True

/-- Stores reachable from process start through events whose button
presses use only rendered callback identifiers. -/
inductive ReachableVia : Store → Prop where
  | init : ReachableVia emptyStore
  | step (st : Store) (e : BotEvent) :
      ReachableVia st → EventAllowed e → ReachableVia (stepStore st e)

theorem ensureSession_settings_cases (st : Store) (chatId c : ℕ) :
    (ensureSession st chatId).settingsByChat c = st.settingsByChat c ∨
    (ensureSession st chatId).settingsByChat c = some newDefaultSettings := by
  by_cases h2 : (st.settingsByChat chatId).isSome
  · exact Or.inl (congrFun (ensureSession_settingsByChat_of_isSome st chatId h2) c)
  · by_cases hc : c = chatId
    · subst hc
      right
      by_cases h1 : (st.dialogs c).isSome <;> simp [ensureSession, h1, h2, mapSet]
    · left
      by_cases h1 : (st.dialogs chatId).isSome <;> simp [ensureSession, h1, h2, mapSet, hc]

theorem inv_ensure (st : Store) (chatId : ℕ) (h : MaxTokensInv st) :
    MaxTokensInv (ensureSession st chatId) := by
  intro c s hcs
  rcases ensureSession_settings_cases st chatId c with he | he
  · rw [he] at hcs
    exact h c s hcs
  · rw [he] at hcs
    obtain rfl : newDefaultSettings = s := Option.some.inj hcs
    exact Or.inr (Or.inl rfl)

theorem inv_reset (st : Store) (chatId : ℕ) (h : MaxTokensInv st) :
    MaxTokensInv (resetSession st chatId) := by
  unfold resetSession
  apply inv_ensure
  intro c s hcs
  by_cases hc : c = chatId
  · subst hc; simp [mapDelete] at hcs
  · simp [mapDelete, hc] at hcs
    exact h c s hcs

theorem inv_showControls (st : Store) (chatId : ℕ) (b : Bool) (env : TgEnv)
    (h : MaxTokensInv st) : MaxTokensInv (showControls st chatId b env).1 := by
  intro c s hcs
  rw [(showControls_store st chatId b env).1] at hcs
  exact inv_ensure st chatId h c s hcs

theorem inv_ensured_getD (st : Store) (chatId : ℕ) (h : MaxTokensInv st) :
    MaxTokensVal
      (((ensureSession st chatId).settingsByChat chatId).getD newDefaultSettings).max_tokens := by
  cases hses : (ensureSession st chatId).settingsByChat chatId with
  | none => exact Or.inr (Or.inl rfl)
  | some s1 => exact inv_ensure st chatId h chatId s1 hses

theorem inv_settingsMutation (st : Store) (chatId : ℕ) (f : Settings → Settings)
    (env : TgEnv)
    (hf : ∀ s0, MaxTokensVal (f s0).max_tokens ∨ (f s0).max_tokens = s0.max_tokens)
    (h : MaxTokensInv st) : MaxTokensInv (settingsMutation st chatId f env).1 := by
  intro c s hcs
  rw [settingsMutation_settings] at hcs
  by_cases hc : c = chatId
  · subst hc
    simp [mapSet] at hcs
    subst hcs
    rcases hf (((ensureSession st c).settingsByChat c).getD newDefaultSettings) with hv | hv
    · exact hv
    · rw [hv]
      exact inv_ensured_getD st c h
  · simp [mapSet, hc] at hcs
    exact inv_ensure st chatId h c s hcs

theorem botOnText_settings (st : Store) (chatId : ℕ) (t : Option String)
    (r1 r2 : LLMResult) :
    (botOnText st chatId t r1 r2).store.settingsByChat = st.settingsByChat ∨
    (botOnText st chatId t r1 r2).store.settingsByChat =
      (ensureSession st chatId).settingsByChat := by
  cases t with
  | none => exact Or.inl rfl
  | some raw =>
    by_cases h1 : jsTrim raw = ""
    · left; simp [botOnText, h1]
    · by_cases h2 : jsStartsWith (jsTrim raw) "/" = true
      · left; simp [botOnText, h1, h2]
      · by_cases h3 :
          ((st.dialogs chatId).isSome && (st.settingsByChat chatId).isSome) = true
        · right; cases r1 <;> cases r2 <;> simp [botOnText, h1, h2, h3]
        · left; simp [botOnText, h1, h2, h3]

theorem inv_botOnText (st : Store) (chatId : ℕ) (t : Option String)
    (r1 r2 : LLMResult) (h : MaxTokensInv st) :
    MaxTokensInv (botOnText st chatId t r1 r2).store := by
  intro c s hcs
  rcases botOnText_settings st chatId t r1 r2 with he | he
  · rw [he] at hcs; exact h c s hcs
  · rw [he] at hcs; exact inv_ensure st chatId h c s hcs

/-- C9 (amended): the default budget is 128; every callback identifier on
any rendered keyboard belongs to the fixed identifier set; and in every
store reachable through events whose button presses use only rendered
identifiers, every conversation's `max_tokens` is one of 64, 128, 256,
512.  (An arbitrary callback identifier matching `len_(\d+)` can escape
this set — see the counterexample.) -/
theorem C9_maxTokens_invariant :
    newDefaultSettings.max_tokens = 128 ∧
    (∀ s : Settings, ∀ row ∈ controlsKeyboard s, ∀ btn ∈ row,
      btn.callback ∈ renderedCallbackIds) ∧
    (∀ row ∈ startKeyboard, ∀ btn ∈ row, btn.callback ∈ renderedCallbackIds) ∧
    (∀ row ∈ afterAnswerKeyboard, ∀ btn ∈ row, btn.callback ∈ renderedCallbackIds) ∧
    ∀ st : Store, ReachableVia st → MaxTokensInv st := by
  refine ⟨rfl, ?_, ?_, ?_, ?_⟩
  · intro s row hrow btn hbtn
    have h1 := List.mem_map_of_mem TgButton.callback hbtn
    have h2 := List.mem_map_of_mem (List.map TgButton.callback) hrow
    have e : (controlsKeyboard s).map (List.map TgButton.callback) =
        [["noop"], ["len_64", "len_128", "len_256", "len_512"], ["noop"],
         ["fmt_bullets", "fmt_json"], ["noop"], ["temp_0.2", "temp_0.9"], ["noop"],
         ["freq_0", "freq_0.6"], ["noop"], ["pres_0", "pres_0.6"], ["noop"],
         ["stop_on", "stop_off"], ["back_to_prompt"]] := rfl
    rw [e] at h2
    have key : ∀ ids ∈ ([["noop"], ["len_64", "len_128", "len_256", "len_512"], ["noop"],
         ["fmt_bullets", "fmt_json"], ["noop"], ["temp_0.2", "temp_0.9"], ["noop"],
         ["freq_0", "freq_0.6"], ["noop"], ["pres_0", "pres_0.6"], ["noop"],
         ["stop_on", "stop_off"], ["back_to_prompt"]] : List (List String)),
        ∀ id ∈ ids, id ∈ renderedCallbackIds := by decide
    exact key _ h2 _ h1
  · decide
  · decide
  · intro st hr
    induction hr with
    | init => intro c s hcs; simp [emptyStore] at hcs
    | step st e hst ha ih =>
      cases e with
      | startCmd c env => exact inv_showControls _ _ _ _ (inv_reset _ _ ih)
      | resetCmd c env => exact inv_showControls _ _ _ _ (inv_reset _ _ ih)
      | controlsCmd c env => exact inv_showControls _ _ _ _ (inv_ensure _ _ ih)
      | textMsg c t r1 r2 => exact inv_botOnText _ _ _ _ _ ih
      | callback c d env =>
        have ha' : d ∈ renderedCallbackIds := ha
        fin_cases ha'
        · exact ih
        · exact inv_showControls _ _ _ _ (inv_reset _ _ ih)
        · exact ih
        · exact inv_showControls _ _ _ _ ih
        · exact ih
        · exact inv_settingsMutation _ _ (fun s0 => { s0 with max_tokens := 64 }) _
            (fun s0 => Or.inl (Or.inl rfl)) ih
        · exact inv_settingsMutation _ _ (fun s0 => { s0 with max_tokens := 128 }) _
            (fun s0 => Or.inl (Or.inr (Or.inl rfl))) ih
        · exact inv_settingsMutation _ _ (fun s0 => { s0 with max_tokens := 256 }) _
            (fun s0 => Or.inl (Or.inr (Or.inr (Or.inl rfl)))) ih
        · exact inv_settingsMutation _ _ (fun s0 => { s0 with max_tokens := 512 }) _
            (fun s0 => Or.inl (Or.inr (Or.inr (Or.inr rfl)))) ih
        · exact inv_settingsMutation _ _ (fun s0 => { s0 with format := "bullets" }) _
            (fun s0 => Or.inr rfl) ih
        · exact inv_settingsMutation _ _ (fun s0 => { s0 with format := "json" }) _
            (fun s0 => Or.inr rfl) ih
        · exact inv_settingsMutation _ _ (fun s0 => { s0 with temperature := 0.2 }) _
            (fun s0 => Or.inr rfl) ih
        · exact inv_settingsMutation _ _ (fun s0 => { s0 with temperature := 0.9 }) _
            (fun s0 => Or.inr rfl) ih
        · exact inv_settingsMutation _ _ (fun s0 => { s0 with frequency_penalty := 0 }) _
            (fun s0 => Or.inr rfl) ih
        · exact inv_settingsMutation _ _ (fun s0 => { s0 with frequency_penalty := 0.6 }) _
            (fun s0 => Or.inr rfl) ih
        · exact inv_settingsMutation _ _ (fun s0 => { s0 with presence_penalty := 0 }) _
            (fun s0 => Or.inr rfl) ih
        · exact inv_settingsMutation _ _ (fun s0 => { s0 with presence_penalty := 0.6 }) _
            (fun s0 => Or.inr rfl) ih
        · exact inv_settingsMutation _ _ (fun s0 => { s0 with use_stop := true }) _
            (fun s0 => Or.inr rfl) ih
        · exact inv_settingsMutation _ _ (fun s0 => { s0 with use_stop := false }) _
            (fun s0 => Or.inr rfl) ih

/-- C9 counterexample: the trigger `len_(\d+)` accepts any digit string,
so the callback identifier "len_999" — never rendered on a keyboard —
sets `max_tokens` to 999, outside `{64, 128, 256, 512}`. -/
theorem C9_counterexample :
    (onCallback (ensureSession emptyStore 1) 1 "len_999"
        ⟨true, some 5, true, some 7⟩).1.settingsByChat 1 =
      some { max_tokens := 999, format := "bullets", temperature := 0.7,
             frequency_penalty := 0, presence_penalty := 0, use_stop := true } ∧
    ¬ MaxTokensVal 999 := by
  refine ⟨rfl, fun h => ?_⟩
  exact (by decide : ¬(999 = 64 ∨ 999 = 128 ∨ 999 = 256 ∨ 999 = 512)) h

/-- Witness for C9 applied after a concrete rendered button press. -/
theorem C9_maxTokens_invariant_witness :
    newDefaultSettings.max_tokens = 128 ∧
    MaxTokensInv (stepStore emptyStore
      (BotEvent.callback 1 "len_256" ⟨true, some 5, true, some 7⟩)) :=
  ⟨C9_maxTokens_invariant.1,
   C9_maxTokens_invariant.2.2.2.2 _
     (ReachableVia.step emptyStore _ ReachableVia.init
       (show ("len_256" : String) ∈ renderedCallbackIds by decide))⟩

end GroqBot
